import Mathlib

/-!
Shallow embedding of the family-chores web application (Node/Express +
MySQL), covering the chore-lifecycle route handlers (`src/api/routes/chores.js`),
the recurring-template engine (`POST /api/recurring/*` routes and the cron
job `generateRecurringChores`), and the login-lockout logic
(`POST /api/auth/login`).

Conventions of the embedding:
* The relational store is a record of lists (one list per table) plus
  AUTO_INCREMENT counters.
* Timestamps are modelled at minute granularity as a calendar day number
  (days since 1970-01-01) plus minutes past midnight; `DATE(x)` in SQL is
  the day number.  Login lockout timestamps, which need millisecond
  arithmetic, are plain `Int` epoch milliseconds.
* DECIMAL money amounts are modelled as integers (a fixed scaling);
  only additive structure is used by the code.
* `db.transaction` (which rolls back all statements of the callback when any
  one throws — see the `transaction` helper in the database config module) is
  modelled by `runTransaction`; bare `db.query` sequences by `runQueries`.
  Failures of external origin are injected by a `failAt` index.
* `bcrypt.compare` and `Math.random` are external collaborators and enter as
  oracle parameters (`passwordCorrect : Bool`, `randIdx : Nat`).
-/

namespace FamilyChores

/-! ## Dates: JS `Date` at minute granularity -/

/-- A timestamp: calendar day number (days since 1970-01-01) plus minutes
past midnight. -/
structure DateTime where
  day : Int
  minute : Nat
deriving Repr, DecidableEq

/-- JS `getDay()`: 0 = Sunday … 6 = Saturday.  Day 0 (1970-01-01) was a
Thursday, hence the +4 offset. -/
def DateTime.getDayOfWeek (t : DateTime) : Int :=
  (t.day + 4) % 7

/-- JS `setDate(getDate() + n)`. -/
def DateTime.addDays (t : DateTime) (n : Int) : DateTime :=
  { t with day := t.day + n }

/-- JS `setMinutes(getMinutes() + n)`, normalising overflow into days. -/
def DateTime.addMinutes (t : DateTime) (n : Nat) : DateTime :=
  let total := t.minute + n
  { day := t.day + (total / 1440 : Nat), minute := total % 1440 }

/-- Strict comparison of timestamps (JS `<` on `Date`). -/
def dtLtb (a b : DateTime) : Bool :=
  if a.day < b.day then true
  else if b.day < a.day then false
  else decide (a.minute < b.minute)

/-- Non-strict comparison of timestamps (SQL `<=`). -/
def dtLeb (a b : DateTime) : Bool :=
  !(dtLtb b a)

/-- Day number of a civil Gregorian date (Hinnant's algorithm); the inverse
of `civilFromDays`.  Used to mirror JS month/day-of-month arithmetic. -/
def daysFromCivil (y0 m d : Int) : Int :=
  let y := if m ≤ 2 then y0 - 1 else y0
  let era := Int.fdiv y 400
  let yoe := y - era * 400
  let mp := if m > 2 then m - 3 else m + 9
  let doy := Int.ediv (153 * mp + 2) 5 + d - 1
  let doe := yoe * 365 + Int.ediv yoe 4 - Int.ediv yoe 100 + doy
  era * 146097 + doe - 719468

/-- Civil Gregorian date (year, month, day-of-month) of a day number. -/
def civilFromDays (z0 : Int) : Int × Int × Int :=
  let z := z0 + 719468
  let era := Int.fdiv z 146097
  let doe := z - era * 146097
  let yoe := Int.ediv (doe - Int.ediv doe 1460 + Int.ediv doe 36524 - Int.ediv doe 146096) 365
  let y := yoe + era * 400
  let doy := doe - (365 * yoe + Int.ediv yoe 4 - Int.ediv yoe 100)
  let mp := Int.ediv (5 * doy + 2) 153
  let d := doy - Int.ediv (153 * mp + 2) 5 + 1
  let m := if mp < 10 then mp + 3 else mp - 9
  (if m ≤ 2 then y + 1 else y, m, d)

/-- JS `setDate(dom)`: keep year and month, set the day-of-month (values
outside the month roll over, as in JS). -/
def DateTime.setDayOfMonth (t : DateTime) (dom : Int) : DateTime :=
  match civilFromDays t.day with
  | (y, m, _) => { t with day := daysFromCivil y m 1 + (dom - 1) }

/-- JS `setMonth(getMonth() + 1)`: advance one calendar month keeping the
day-of-month, rolling overflow into the next month (Jan 31 → Mar 3). -/
def DateTime.addOneMonth (t : DateTime) : DateTime :=
  match civilFromDays t.day with
  | (y, m, d) =>
    if m = 12 then { t with day := daysFromCivil (y + 1) 1 1 + (d - 1) }
    else { t with day := daysFromCivil y (m + 1) 1 + (d - 1) }

/-! ## Data model (relational rows, `database/schema.sql` and `updates.sql`) -/

/-- Row of `users`. -/
structure User where
  id : Nat
  family_id : Nat
  name : String
  role : String
  earnings : Int
  screen_time_earned : Int
  is_active : Bool
  login_attempts : Nat
  locked_until : Option Int
  last_login : Option Int
deriving Repr, DecidableEq

/-- Row of `chores`.  The `metadata` JSON column is modelled by its one field
read back by the code (`recurring_id`, written by recurring generation). -/
structure Chore where
  id : Nat
  family_id : Nat
  template_id : Option Nat
  title : String
  description : Option String
  reward_type : String
  reward_amount : Int
  current_reward : Int
  requires_photo : Bool
  acceptance_timer : Nat
  status : String
  priority : String
  due_date : Option DateTime
  assigned_to : Option Nat
  assigned_at : Option DateTime
  accepted_at : Option DateTime
  completed_at : Option DateTime
  created_by : Nat
  recurring_id : Option Nat
deriving Repr, DecidableEq

/-- Row of `chore_assignments`. -/
structure ChoreAssignment where
  id : Nat
  chore_id : Nat
  user_id : Nat
  assigned_by : Nat
  assigned_at : DateTime
  status : String
  acceptance_deadline : Option DateTime
  accepted_at : Option DateTime
  declined_at : Option DateTime
deriving Repr, DecidableEq

/-- Row of `chore_submissions`. -/
structure ChoreSubmission where
  id : Nat
  chore_id : Nat
  user_id : Nat
  assignment_id : Option Nat
  photo_path : Option String
  notes : Option String
  submitted_at : DateTime
  status : String
  reviewed_at : Option DateTime
  reviewed_by : Option Nat
  review_notes : Option String
deriving Repr, DecidableEq

/-- Row of `completed_tasks` (the write-once reward ledger). -/
structure CompletedTask where
  id : Nat
  chore_id : Nat
  user_id : Nat
  submission_id : Nat
  chore_title : String
  chore_description : Option String
  reward_type : String
  reward_earned : Int
  completed_at : DateTime
  approved_by : Nat
  approved_at : DateTime
  photo_path : Option String
  notes : Option String
deriving Repr, DecidableEq

/-- Row of `recurring_chores`.  `rotation_members` is a JSON array of user
ids; the parsed form is stored here. -/
structure RecurringChore where
  id : Nat
  family_id : Nat
  template_id : Option Nat
  title : String
  description : Option String
  reward_type : String
  reward_amount : Int
  requires_photo : Bool
  frequency : String
  day_of_week : Option String
  day_of_month : Option Int
  start_date : Int
  end_date : Option Int
  last_generated : Option DateTime
  next_due_date : DateTime
  auto_assign : Bool
  assigned_to : Option Nat
  rotation_type : String
  rotation_members : Option (List Nat)
  priority : String
  estimated_duration : Option Nat
  difficulty_level : String
  category : Option String
  is_active : Bool
  created_by : Nat
deriving Repr, DecidableEq

/-- Row of `recurring_chore_history` (one row per generation event — the
idempotence guard). -/
structure RecurringChoreHistory where
  id : Nat
  recurring_id : Nat
  chore_id : Nat
  due_date : DateTime
  status : String
  assigned_to : Option Nat
deriving Repr, DecidableEq

/-- The relational store: one list per table plus AUTO_INCREMENT counters. -/
structure DB where
  nextChoreId : Nat
  nextAssignmentId : Nat
  nextSubmissionId : Nat
  nextTaskId : Nat
  nextHistoryId : Nat
  users : List User
  chores : List Chore
  chore_assignments : List ChoreAssignment
  chore_submissions : List ChoreSubmission
  completed_tasks : List CompletedTask
  recurring_chores : List RecurringChore
  recurring_chore_history : List RecurringChoreHistory
deriving Repr, DecidableEq

/-! ## Statement execution: transactions vs. bare query sequences -/

/-- Outcome of a route handler, by HTTP status class: `ok` for 2xx, `err c`
for the error response with status code `c`. -/
inductive ApiResult where
  | ok : ApiResult
  | err : Nat → ApiResult
deriving Repr, DecidableEq

/-- Applies a sequence of SQL write statements in order. -/
def applySteps (ops : List (DB → DB)) (s : DB) : DB :=
  ops.foldl (fun st op => op st) s

/-- Semantics of `db.transaction(callback)`: the `transaction` helper in the
database config begins a transaction, runs the callback's statements, and on
any thrown error rolls every statement back and rethrows.  `failAt = some i`
with `i < ops.length` injects a failure at statement `i`: the first component
is `false` (error) and the state is unchanged (rollback). -/
def runTransaction (ops : List (DB → DB)) (failAt : Option Nat) (s : DB) : Bool × DB :=
  match failAt with
  | some i => if i < ops.length then (false, s) else (true, applySteps ops s)
  | none => (true, applySteps ops s)

/-- Semantics of a sequence of separate `db.query(...)` calls with no
surrounding transaction: a failure at statement `i` keeps all earlier
statements committed (no rollback). -/
def runQueries (ops : List (DB → DB)) (failAt : Option Nat) (s : DB) : Bool × DB :=
  match failAt with
  | some i =>
    if i < ops.length then (false, applySteps (ops.take i) s)
    else (true, applySteps ops s)
  | none => (true, applySteps ops s)

/-- A route handler's ending for a `db.transaction` block: 2xx with the
committed state on success, 500 with the rolled-back (original) state when a
statement threw. -/
def finishTx (ops : List (DB → DB)) (failAt : Option Nat) (s : DB) : ApiResult × DB :=
  match runTransaction ops failAt s with
  | (true, s1) => (ApiResult.ok, s1)
  | (false, _) => (ApiResult.err 500, s)

/-! ## Shared row lookups ("latest row" queries) -/

/-- JS `x || dflt` on an optional number (0 is falsy). -/
def jsOrNat (x : Option Nat) (dflt : Nat) : Nat :=
  match x with
  | none => dflt
  | some v => if v == 0 then dflt else v

/-- JS `x || dflt` on an optional string (the empty string is falsy). -/
def jsOrStr (x : Option String) (dflt : String) : String :=
  match x with
  | none => dflt
  | some v => if v.isEmpty then dflt else v

/-- `ORDER BY <key> DESC LIMIT 1` over a result set: the row with the
maximal key (ties resolved to the earlier row, a deterministic refinement of
the unspecified SQL order among equal keys). -/
def pickLatest {α} (ltb : α → α → Bool) (l : List α) : Option α :=
  l.foldl
    (fun acc x =>
      match acc with
      | none => some x
      | some b => if ltb b x then some x else some b) none

/-- `SELECT * FROM chore_submissions WHERE chore_id = ? AND user_id = ?
ORDER BY submitted_at DESC LIMIT 1`. -/
def latestSubmissionFor (db : DB) (choreId uid : Nat) : Option ChoreSubmission :=
  pickLatest (fun b s => dtLtb b.submitted_at s.submitted_at)
    (db.chore_submissions.filter (fun s => s.chore_id == choreId && s.user_id == uid))

/-- `SELECT * FROM chore_assignments WHERE chore_id = ? AND user_id = ?
ORDER BY assigned_at DESC LIMIT 1`. -/
def latestAssignmentFor (db : DB) (choreId uid : Nat) : Option ChoreAssignment :=
  pickLatest (fun b a => dtLtb b.assigned_at a.assigned_at)
    (db.chore_assignments.filter (fun a => a.chore_id == choreId && a.user_id == uid))

/-- `SELECT * FROM recurring_chore_history WHERE recurring_id = ?
ORDER BY due_date DESC LIMIT 1`. -/
def lastHistoryFor (db : DB) (rid : Nat) : Option RecurringChoreHistory :=
  pickLatest (fun b h => dtLtb b.due_date h.due_date)
    (db.recurring_chore_history.filter (fun h => h.recurring_id == rid))

/-! ## Chore routes (`src/api/routes/chores.js`) -/

/-- Request body of `POST /api/chores`. -/
structure CreateChoreRequest where
  title : Option String
  description : Option String
  reward_amount : Option Int
  reward_type : Option String
  requires_photo : Bool
  acceptance_timer : Option Nat
  auto_assign : Bool
  assigned_to : Option Nat
  rotation_type : Option String
  rotation_members : Option (List Nat)
  priority : Option String
deriving Repr, DecidableEq

/-- The create route's single-shot assignee resolution: fixed assignee when
`rotation_type` is "none", first member for "round_robin", random member
(`randIdx` is the `Math.random` oracle) for "random". -/
def resolveInitialAssignee (req : CreateChoreRequest) (randIdx : Nat) : Option Nat :=
  if req.auto_assign then
    if req.rotation_type == some "none" && req.assigned_to.isSome then
      req.assigned_to
    else if req.rotation_type == some "round_robin" || req.rotation_type == some "random" then
      match req.rotation_members with
      | some members =>
        if members.length > 0 then
          if req.rotation_type == some "round_robin" then members.get? 0
          else members.get? (randIdx % members.length)
        else none
      | none => none
    else none
  else none

/-- `POST /api/chores` (parent only): inserts the chore and, when an initial
assignee was resolved, a companion `chore_assignments` row, both inside one
`db.transaction`. -/
def createChore (u : User) (req : CreateChoreRequest) (randIdx : Nat) (now : DateTime)
    (failAt : Option Nat) (db : DB) : ApiResult × DB :=
  if u.role != "parent" then (ApiResult.err 403, db)
  else if (match req.title with | none => true | some t => t.isEmpty) ||
      req.reward_amount == none then
    (ApiResult.err 400, db)
  else
    let initialAssignedTo := resolveInitialAssignee req randIdx
    let status := match initialAssignedTo with | some _ => "assigned" | none => "available"
    let assignedAt := match initialAssignedTo with | some _ => some now | none => none
    let choreId := db.nextChoreId
    let newChore : Chore :=
      { id := choreId
        family_id := u.family_id
        template_id := none
        title := req.title.getD ""
        description := req.description
        reward_type := jsOrStr req.reward_type "money"
        reward_amount := req.reward_amount.getD 0
        current_reward := req.reward_amount.getD 0
        requires_photo := req.requires_photo
        acceptance_timer := jsOrNat req.acceptance_timer 5
        status := status
        priority := jsOrStr req.priority "medium"
        due_date := none
        assigned_to := initialAssignedTo
        assigned_at := assignedAt
        accepted_at := none
        completed_at := none
        created_by := u.id
        recurring_id := none }
    let insertChoreOp : DB → DB := fun s =>
      { s with chores := s.chores ++ [newChore], nextChoreId := s.nextChoreId + 1 }
    let assignmentOps : List (DB → DB) :=
      match initialAssignedTo with
      | some uid =>
        [fun s =>
          { s with
            chore_assignments := s.chore_assignments ++ [{
              id := s.nextAssignmentId
              chore_id := choreId
              user_id := uid
              assigned_by := u.id
              assigned_at := now
              status := "pending"
              acceptance_deadline := some (now.addMinutes (jsOrNat req.acceptance_timer 5))
              accepted_at := none
              declined_at := none }]
            nextAssignmentId := s.nextAssignmentId + 1 }]
      | none => []
    finishTx (insertChoreOp :: assignmentOps) failAt db

/-- The allowlisted field subset of a `PATCH /api/chores/:id` body
(absent field = key not present in the request). -/
structure ChoreUpdateBody where
  title : Option String
  description : Option String
  reward_amount : Option Int
  reward_type : Option String
  requires_photo : Option Bool
  acceptance_timer : Option Nat
  status : Option String
deriving Repr, DecidableEq

/-- True when no allowlisted key appears in the PATCH body. -/
def choreUpdateEmpty (b : ChoreUpdateBody) : Bool :=
  b.title == none && b.description == none && b.reward_amount == none &&
  b.reward_type == none && b.requires_photo == none && b.acceptance_timer == none &&
  b.status == none

/-- The dynamic `UPDATE chores SET ...` built from the present keys. -/
def applyChoreUpdate (b : ChoreUpdateBody) (c : Chore) : Chore :=
  { c with
    title := b.title.getD c.title
    description := match b.description with | some d => some d | none => c.description
    reward_amount := b.reward_amount.getD c.reward_amount
    reward_type := b.reward_type.getD c.reward_type
    requires_photo := b.requires_photo.getD c.requires_photo
    acceptance_timer := b.acceptance_timer.getD c.acceptance_timer
    status := b.status.getD c.status }

/-- `PATCH /api/chores/:id`: allowlist patch with no transition-guard
re-validation (the caller may set `status` directly). -/
def updateChore (u : User) (choreId : Nat) (b : ChoreUpdateBody) (db : DB) : ApiResult × DB :=
  match db.chores.find? (fun c => c.id == choreId) with
  | none => (ApiResult.err 404, db)
  | some c =>
    if u.role != "parent" && c.created_by != u.id then (ApiResult.err 403, db)
    else if choreUpdateEmpty b then (ApiResult.err 400, db)
    else
      (ApiResult.ok,
        { db with chores := db.chores.map (fun x =>
            if x.id == choreId then applyChoreUpdate b x else x) })

/-- `POST /api/chores/:id/assign` (parent only): inserts a pending
`chore_assignments` row with deadline `now + acceptance_timer` minutes and
moves the chore to `pending_acceptance`, in one transaction. -/
def assignChore (u : User) (choreId targetUserId : Nat) (now : DateTime)
    (failAt : Option Nat) (db : DB) : ApiResult × DB :=
  if u.role != "parent" then (ApiResult.err 403, db)
  else if targetUserId == 0 then (ApiResult.err 400, db)
  else
    match db.chores.find? (fun c => c.id == choreId && c.family_id == u.family_id) with
    | none => (ApiResult.err 404, db)
    | some c =>
      match db.users.find? (fun v => v.id == targetUserId && v.family_id == u.family_id) with
      | none => (ApiResult.err 404, db)
      | some _ =>
        let deadline := now.addMinutes (jsOrNat (some c.acceptance_timer) 5)
        let ops : List (DB → DB) := [
          fun s =>
            { s with
              chore_assignments := s.chore_assignments ++ [{
                id := s.nextAssignmentId
                chore_id := c.id
                user_id := targetUserId
                assigned_by := u.id
                assigned_at := now
                status := "pending"
                acceptance_deadline := some deadline
                accepted_at := none
                declined_at := none }]
              nextAssignmentId := s.nextAssignmentId + 1 },
          fun s =>
            { s with chores := s.chores.map (fun x =>
                if x.id == c.id then
                  { x with assigned_to := some targetUserId, assigned_at := some now,
                           status := "pending_acceptance" }
                else x) } ]
        finishTx ops failAt db

/-- `POST /api/chores/:id/accept` (assignee only, chore must be
`pending_acceptance` and assigned to the caller). -/
def acceptChore (u : User) (choreId : Nat) (now : DateTime)
    (failAt : Option Nat) (db : DB) : ApiResult × DB :=
  match db.chores.find? (fun c => c.id == choreId && c.assigned_to == some u.id &&
      c.status == "pending_acceptance") with
  | none => (ApiResult.err 404, db)
  | some c =>
    let ops : List (DB → DB) := [
      fun s =>
        { s with chore_assignments := s.chore_assignments.map (fun a =>
            if a.chore_id == c.id && a.user_id == u.id && a.status == "pending" then
              { a with status := "accepted", accepted_at := some now }
            else a) },
      fun s =>
        { s with chores := s.chores.map (fun x =>
            if x.id == c.id then { x with status := "in_progress", accepted_at := some now }
            else x) } ]
    finishTx ops failAt db

/-- `POST /api/chores/:id/decline` (assignee only, same precondition as
accept): marks the pending assignment declined and reverts the chore to
`available` with `assigned_to`/`assigned_at` cleared. -/
def declineChore (u : User) (choreId : Nat) (now : DateTime)
    (failAt : Option Nat) (db : DB) : ApiResult × DB :=
  match db.chores.find? (fun c => c.id == choreId && c.assigned_to == some u.id &&
      c.status == "pending_acceptance") with
  | none => (ApiResult.err 404, db)
  | some c =>
    let ops : List (DB → DB) := [
      fun s =>
        { s with chore_assignments := s.chore_assignments.map (fun a =>
            if a.chore_id == c.id && a.user_id == u.id && a.status == "pending" then
              { a with status := "declined", declined_at := some now }
            else a) },
      fun s =>
        { s with chores := s.chores.map (fun x =>
            if x.id == c.id then
              { x with status := "available", assigned_to := none, assigned_at := none }
            else x) } ]
    finishTx ops failAt db

/-- `POST /api/chores/:id/submit` (assignee only, chore must be
`in_progress`): optional photo; creates a pending submission referencing the
latest assignment row and moves the chore to `pending_approval`. -/
def submitChore (u : User) (choreId : Nat) (photo : Option String) (notes : Option String)
    (now : DateTime) (failAt : Option Nat) (db : DB) : ApiResult × DB :=
  match db.chores.find? (fun c => c.id == choreId && c.assigned_to == some u.id &&
      c.status == "in_progress") with
  | none => (ApiResult.err 404, db)
  | some c =>
    if c.requires_photo && photo == none then (ApiResult.err 400, db)
    else
      let assignment := latestAssignmentFor db c.id u.id
      let ops : List (DB → DB) := [
        fun s =>
          { s with
            chore_submissions := s.chore_submissions ++ [{
              id := s.nextSubmissionId
              chore_id := c.id
              user_id := u.id
              assignment_id := assignment.map (fun a => a.id)
              photo_path := photo
              notes := notes
              submitted_at := now
              status := "pending"
              reviewed_at := none
              reviewed_by := none
              review_notes := none }]
            nextSubmissionId := s.nextSubmissionId + 1 },
        fun s =>
          { s with chores := s.chores.map (fun x =>
              if x.id == c.id then { x with status := "pending_approval" } else x) } ]
      finishTx ops failAt db

/-- The approve route's chore lookup: `SELECT c.*, u.name ... FROM chores c
JOIN users u ON c.assigned_to = u.id WHERE c.id = ? AND c.family_id = ? AND
c.status = 'pending_approval'` — the inner join requires a non-null
`assigned_to` referencing an existing user. -/
def approveChoreLookup (db : DB) (choreId familyId : Nat) : Option Chore :=
  db.chores.find? (fun c => c.id == choreId && c.family_id == familyId &&
    c.status == "pending_approval" &&
    (match c.assigned_to with
     | some uid => (db.users.find? (fun v => v.id == uid)).isSome
     | none => false))

/-- `POST /api/chores/:id/approve` (parent only): in one transaction marks
the latest submission approved, inserts the `completed_tasks` snapshot with
`reward_earned = current_reward`, credits the assignee's balance, and moves
the chore to `completed`. -/
def approveChore (u : User) (choreId : Nat) (now : DateTime)
    (failAt : Option Nat) (db : DB) : ApiResult × DB :=
  if u.role != "parent" then (ApiResult.err 403, db)
  else
    match approveChoreLookup db choreId u.family_id with
    | none => (ApiResult.err 404, db)
    | some c =>
      match c.assigned_to with
      | none => (ApiResult.err 404, db)
      | some assignee =>
        match latestSubmissionFor db c.id assignee with
        | none => (ApiResult.err 404, db)
        | some subm =>
          let ops : List (DB → DB) := [
            fun s =>
              { s with chore_submissions := s.chore_submissions.map (fun x =>
                  if x.id == subm.id then
                    { x with status := "approved", reviewed_at := some now,
                             reviewed_by := some u.id }
                  else x) },
            fun s =>
              { s with
                completed_tasks := s.completed_tasks ++ [{
                  id := s.nextTaskId
                  chore_id := c.id
                  user_id := assignee
                  submission_id := subm.id
                  chore_title := c.title
                  chore_description := c.description
                  reward_type := c.reward_type
                  reward_earned := c.current_reward
                  completed_at := subm.submitted_at
                  approved_by := u.id
                  approved_at := now
                  photo_path := subm.photo_path
                  notes := subm.notes }]
                nextTaskId := s.nextTaskId + 1 },
            -- the balance credit is one UPDATE picked by reward_type
            -- (a no-op for a type outside the enum)
            fun s =>
              { s with users := s.users.map (fun v =>
                  if v.id == assignee then
                    if c.reward_type == "money" then
                      { v with earnings := v.earnings + c.current_reward }
                    else if c.reward_type == "screen_time" then
                      { v with screen_time_earned := v.screen_time_earned + c.current_reward }
                    else v
                  else v) },
            fun s =>
              { s with chores := s.chores.map (fun x =>
                  if x.id == c.id then
                    { x with status := "completed", completed_at := some now }
                  else x) } ]
          finishTx ops failAt db

/-- `POST /api/chores/:id/reject` (parent only): latest submission →
`rejected` with review notes; chore back to `in_progress`. -/
def rejectChore (u : User) (choreId : Nat) (feedback : Option String) (now : DateTime)
    (failAt : Option Nat) (db : DB) : ApiResult × DB :=
  if u.role != "parent" then (ApiResult.err 403, db)
  else
    match db.chores.find? (fun c => c.id == choreId && c.family_id == u.family_id &&
        c.status == "pending_approval") with
    | none => (ApiResult.err 404, db)
    | some c =>
      match c.assigned_to with
      | none => (ApiResult.err 404, db)  -- SQL `user_id = NULL` matches no submission
      | some assignee =>
        match latestSubmissionFor db c.id assignee with
        | none => (ApiResult.err 404, db)
        | some subm =>
          let ops : List (DB → DB) := [
            fun s =>
              { s with chore_submissions := s.chore_submissions.map (fun x =>
                  if x.id == subm.id then
                    { x with status := "rejected", reviewed_at := some now,
                             reviewed_by := some u.id,
                             review_notes := some (jsOrStr feedback "Needs improvement") }
                  else x) },
            fun s =>
              { s with chores := s.chores.map (fun x =>
                  if x.id == c.id then { x with status := "in_progress" } else x) } ]
          finishTx ops failAt db

/-- `DELETE /api/chores/:id` (parent only): refused with 400 for a completed
chore; otherwise deletes the row (child rows fall to the schema's
ON DELETE CASCADE foreign keys). -/
def deleteChore (u : User) (choreId : Nat) (db : DB) : ApiResult × DB :=
  if u.role != "parent" then (ApiResult.err 403, db)
  else
    match db.chores.find? (fun c => c.id == choreId && c.family_id == u.family_id) with
    | none => (ApiResult.err 404, db)
    | some c =>
      if c.status == "completed" then (ApiResult.err 400, db)
      else
        (ApiResult.ok,
          { db with
            chores := db.chores.filter (fun x => !(x.id == choreId))
            chore_assignments := db.chore_assignments.filter (fun a => !(a.chore_id == choreId))
            chore_submissions := db.chore_submissions.filter (fun s2 => !(s2.chore_id == choreId))
            completed_tasks := db.completed_tasks.filter (fun t => !(t.chore_id == choreId))
            recurring_chore_history :=
              db.recurring_chore_history.filter (fun h => !(h.chore_id == choreId)) })

/-! ## Recurring templates (`POST /api/recurring` routes and the cron job) -/

/-- JS `toLowerCase()` restricted to ASCII (the inputs here are day-of-week
names); `String.toLower` itself is opaque to kernel reduction. -/
def asciiLower (s : String) : String :=
  String.mk (s.data.map (fun c =>
    if 65 ≤ c.toNat && c.toNat ≤ 90 then Char.ofNat (c.toNat + 32) else c))

/-- The `daysOfWeek` array of the due-date computation. -/
def dayNames : List String :=
  ["sunday", "monday", "tuesday", "wednesday", "thursday", "friday", "saturday"]

/-- Creation-time `next_due_date` computation of `POST /api/recurring`
(also reused by `PUT /api/recurring/:id`): start from `start_date` at 09:00;
if that instant is in the past relative to `now`, advance per frequency —
weekly advances `(targetDay + 7 - currentDay) % 7` days to the next
occurrence of `day_of_week`. -/
def calculateNextDueDate (frequency : String) (day_of_week : Option String)
    (day_of_month : Option Int) (startDay : Int) (now : DateTime) : DateTime :=
  let base : DateTime := { day := startDay, minute := 9 * 60 }
  if dtLtb base now then
    if frequency == "daily" then base.addDays 1
    else if frequency == "weekly" then
      match day_of_week with
      | some dow =>
        match dayNames.findIdx? (fun d => d == asciiLower dow) with
        | some targetDay =>
          let currentDay := base.getDayOfWeek
          let daysToAdd := ((targetDay : Int) + 7 - currentDay) % 7
          base.addDays daysToAdd
        | none => base.addDays 7
      | none => base.addDays 7
    else if frequency == "monthly" then
      match day_of_month with
      | some dom =>
        let withDom := base.setDayOfMonth dom
        if dtLtb withDom now then withDom.addOneMonth else withDom
      | none => base.addOneMonth
    else if frequency == "custom" then base.addDays 1
    else base
  else base

/-- Post-generation advance of `next_due_date`: the plain period step
(daily +1d, weekly +7d, monthly +1 month, custom +7d) with no day-of-week or
day-of-month re-alignment; an unknown frequency leaves the date unchanged
(the `switch` has no default case). -/
def advanceNextDueDate (frequency : String) (d : DateTime) : DateTime :=
  if frequency == "daily" then d.addDays 1
  else if frequency == "weekly" then d.addDays 7
  else if frequency == "monthly" then d.addOneMonth
  else if frequency == "custom" then d.addDays 7
  else d

/-- Generation-time assignee resolution for a template: fixed assignee for
rotation "none"; round-robin walks `rotation_members` cyclically after the
most recent history row's assignee (`indexOf` yields -1 for a vanished
member, so `(-1+1) % length = 0` falls back to the first member); "random"
picks by the `Math.random` oracle `randIdx`. -/
def determineAssignee (db : DB) (rc : RecurringChore) (randIdx : Nat) : Option Nat :=
  if rc.auto_assign then
    if rc.rotation_type == "none" && rc.assigned_to.isSome then rc.assigned_to
    else if rc.rotation_type == "round_robin" && rc.rotation_members.isSome then
      match rc.rotation_members with
      | some members =>
        if members.length > 0 then
          match lastHistoryFor db rc.id with
          | some h =>
            match h.assigned_to with
            | some prev =>
              let lastIndex : Int :=
                match members.findIdx? (fun m => m == prev) with
                | some i => (i : Int)
                | none => -1
              members.get? (((lastIndex + 1) % (members.length : Int)).toNat)
            | none => members.get? 0
          | none => members.get? 0
        else none
      | none => none
    else if rc.rotation_type == "random" && rc.rotation_members.isSome then
      match rc.rotation_members with
      | some members =>
        if members.length > 0 then members.get? (randIdx % members.length) else none
      | none => none
    else none
  else none

/-- The per-template write sequence of generation (chore insert, optional
assignment insert, history insert, template update). `creatorId = none`
models the cron path (rows attributed to the template's `created_by`);
`creatorId = some uid` models the manual endpoint (rows attributed to the
requesting parent). -/
def templateWriteOps (rc : RecurringChore) (assignedTo : Option Nat)
    (creatorId : Option Nat) (now : DateTime) (choreId : Nat) : List (DB → DB) :=
  let creator := creatorId.getD rc.created_by
  let insertChoreOp : DB → DB := fun s =>
    { s with
      chores := s.chores ++ [{
        id := choreId
        family_id := rc.family_id
        template_id := rc.template_id
        title := rc.title
        description := rc.description
        reward_type := rc.reward_type
        reward_amount := rc.reward_amount
        current_reward := rc.reward_amount
        requires_photo := rc.requires_photo
        acceptance_timer := 5
        status := match assignedTo with | some _ => "assigned" | none => "available"
        priority := rc.priority
        due_date := some rc.next_due_date
        assigned_to := assignedTo
        assigned_at := match assignedTo with | some _ => some now | none => none
        accepted_at := none
        completed_at := none
        created_by := creator
        recurring_id := some rc.id }]
      nextChoreId := s.nextChoreId + 1 }
  let assignmentOps : List (DB → DB) :=
    match assignedTo with
    | some uid =>
      [fun s =>
        { s with
          chore_assignments := s.chore_assignments ++ [{
            id := s.nextAssignmentId
            chore_id := choreId
            user_id := uid
            assigned_by := creator
            assigned_at := now
            status := "pending"
            acceptance_deadline := none  -- this path sets no acceptance deadline
            accepted_at := none
            declined_at := none }]
          nextAssignmentId := s.nextAssignmentId + 1 }]
    | none => []
  let insertHistoryOp : DB → DB := fun s =>
    { s with
      recurring_chore_history := s.recurring_chore_history ++ [{
        id := s.nextHistoryId
        recurring_id := rc.id
        chore_id := choreId
        due_date := rc.next_due_date
        status := "generated"
        assigned_to := assignedTo }]
      nextHistoryId := s.nextHistoryId + 1 }
  let updateTemplateOp : DB → DB := fun s =>
    { s with recurring_chores := s.recurring_chores.map (fun x =>
        if x.id == rc.id then
          { x with next_due_date := advanceNextDueDate rc.frequency rc.next_due_date,
                   last_generated := some now }
        else x) }
  insertChoreOp :: (assignmentOps ++ [insertHistoryOp, updateTemplateOp])

/-- One template's processing step: the idempotence guard (skip when a
history row already exists for this `recurring_id` with the same calendar
date as `next_due_date`), assignee resolution, then the write sequence —
executed as separate `db.query` calls, not a transaction.  The first
component is `false` when an injected failure threw (the loop aborts). -/
def processTemplate (creatorId : Option Nat) (now : DateTime) (randIdx : Nat)
    (failStep : Option Nat) (db : DB) (rc : RecurringChore) : Bool × DB :=
  match db.recurring_chore_history.find? (fun h =>
      h.recurring_id == rc.id && h.due_date.day == rc.next_due_date.day) with
  | some _ => (true, db)  -- already generated for this date: skip, continue the loop
  | none =>
    let assignedTo := determineAssignee db rc randIdx
    runQueries (templateWriteOps rc assignedTo creatorId now db.nextChoreId) failStep db

/-- A fault-injection point inside a generation batch: the write statement
`step` of the template at position `template` in the batch throws. -/
structure GenFail where
  template : Nat
  step : Nat
deriving Repr, DecidableEq

/-- The per-template sequential loop of generation.  There is no per-template
try/catch: an error thrown while processing one template propagates out of
the loop, so the remaining templates are not processed in that invocation
(earlier templates' writes are kept — no transaction, no rollback). -/
def generateLoop (creatorId : Option Nat) (now : DateTime) (rand : Nat → Nat)
    (failAt : Option GenFail) : List RecurringChore → Nat → DB → DB
  | [], _, db => db
  | rc :: rest, i, db =>
    let failStep := match failAt with
      | some f => if f.template == i then some f.step else none
      | none => none
    match processTemplate creatorId now (rand i) failStep db rc with
    | (true, db1) => generateLoop creatorId now rand failAt rest (i + 1) db1
    | (false, db1) => db1

/-- The batch selection `SELECT * FROM recurring_chores WHERE is_active = 1
AND next_due_date <= ? AND (end_date IS NULL OR end_date >= CURDATE())`
with `?` bound to end-of-today. -/
def dueTemplates (db : DB) (now : DateTime) : List RecurringChore :=
  let endOfToday : DateTime := { day := now.day, minute := 1439 }
  db.recurring_chores.filter (fun rc =>
    rc.is_active && dtLeb rc.next_due_date endOfToday &&
      (match rc.end_date with
       | none => true
       | some e => decide (now.day ≤ e)))

/-- The scheduler's `generateRecurringChores` (same per-template body as
`POST /api/recurring/generate` without a `recurringId`): select the due
templates, then run the sequential loop. -/
def generateRecurringChores (now : DateTime) (rand : Nat → Nat)
    (failAt : Option GenFail) (db : DB) : DB :=
  generateLoop none now rand failAt (dueTemplates db now) 0 db

/-! ## Login lockout (`POST /api/auth/login`) -/

/-- Outcome of a login attempt (HTTP status 200/401/423). -/
inductive LoginResult where
  | success : LoginResult
  | invalid : LoginResult
  | locked : LoginResult
deriving Repr, DecidableEq

/-- The lockout window, 15 minutes in milliseconds. -/
def lockoutWindowMs : Int := 15 * 60 * 1000

/-- The login handler's logic after the active user row was found
(`passwordCorrect` is the `bcrypt.compare` oracle; `now` is epoch
milliseconds): a live lockout rejects with 423 before the password check; a
mismatch increments `login_attempts` and sets `locked_until = now + 15min`
once they reach 5; a correct password resets the counter and clears the
lock. -/
def loginAttempt (user : User) (passwordCorrect : Bool) (now : Int) : LoginResult × User :=
  let isLocked :=
    match user.locked_until with
    | some t => decide (now < t)
    | none => false
  if isLocked then (LoginResult.locked, user)
  else if passwordCorrect then
    (LoginResult.success,
      { user with login_attempts := 0, locked_until := none, last_login := some now })
  else
    let newAttempts := user.login_attempts + 1
    (LoginResult.invalid,
      { user with
        login_attempts := newAttempts
        locked_until := if 5 ≤ newAttempts then some (now + lockoutWindowMs) else none })

/-! ## Status/assignment invariant -/

/-- The `chores.status` enum of the schema. -/
def choreStatuses : List String :=
  ["available", "assigned", "pending_acceptance", "auto_accepted", "in_progress",
   "pending_approval", "completed", "cancelled"]

/-- The spec's chore invariant: the status is in the enum and `assigned_to`
is null exactly when the chore is `available`. -/
def choreConsistent (c : Chore) : Prop :=
  c.status ∈ choreStatuses ∧ (c.assigned_to = none ↔ c.status = "available")

/-- Every chore row of the store satisfies the invariant. -/
def dbChoresConsistent (db : DB) : Prop :=
  ∀ c ∈ db.chores, choreConsistent c

/-- Primary-key uniqueness of `chores.id`. -/
def choreIdsNodup (db : DB) : Prop :=
  (db.chores.map Chore.id).Nodup

/-- The chore-lifecycle operations of the API other than the `PATCH`
field-allowlist update: creation, the five transition routes, review, and
recurring generation. -/
inductive LifecycleOp where
  | create (u : User) (req : CreateChoreRequest) (randIdx : Nat)
  | assign (u : User) (choreId targetUserId : Nat)
  | accept (u : User) (choreId : Nat)
  | decline (u : User) (choreId : Nat)
  | submit (u : User) (choreId : Nat) (photo notes : Option String)
  | approve (u : User) (choreId : Nat)
  | reject (u : User) (choreId : Nat) (feedback : Option String)
  | generate (creatorId : Option Nat) (rand : Nat → Nat)

/-- The store produced by an operation's handler (successful execution, no
injected failure). -/
def applyLifecycleOp (op : LifecycleOp) (now : DateTime) (db : DB) : DB :=
  match op with
  | .create u req randIdx => (createChore u req randIdx now none db).2
  | .assign u cid uid => (assignChore u cid uid now none db).2
  | .accept u cid => (acceptChore u cid now none db).2
  | .decline u cid => (declineChore u cid now none db).2
  | .submit u cid photo notes => (submitChore u cid photo notes now none db).2
  | .approve u cid => (approveChore u cid now none db).2
  | .reject u cid fb => (rejectChore u cid fb now none db).2
  | .generate creatorId rand => generateLoop creatorId now rand none (dueTemplates db now) 0 db

/-! ## Helper lemmas -/

theorem find?_eq_some_mem {α} {p : α → Bool} {l : List α} {a : α}
    (h : l.find? p = some a) : a ∈ l ∧ p a = true :=
  ⟨List.mem_of_find?_eq_some h, List.find?_some h⟩

theorem nodup_key_eq {α} {key : α → Nat} {l : List α} (hnd : (l.map key).Nodup)
    {x y : α} (hx : x ∈ l) (hy : y ∈ l) (h : key x = key y) : x = y :=
  List.inj_on_of_nodup_map hnd hx hy h

/-- Consistency is preserved by an `UPDATE ... WHERE id = c.id` whose row
transform keeps the target row consistent, given primary-key uniqueness. -/
theorem choresConsistent_map_update {l : List Chore}
    (hnd : (l.map Chore.id).Nodup) (hcons : ∀ x ∈ l, choreConsistent x)
    {c : Chore} (hc : c ∈ l) (g : Chore → Chore) (hcg : choreConsistent (g c)) :
    ∀ y ∈ l.map (fun x => if x.id == c.id then g x else x), choreConsistent y := by
  intro y hy
  rcases List.mem_map.mp hy with ⟨x, hx, rfl⟩
  by_cases hid : x.id == c.id
  · have hxc : x = c := nodup_key_eq hnd hx hc (by simpa using hid)
    simp [hid, hxc, hcg]
  · simp only [hid, if_neg]
    simpa [hid] using hcons x hx

/-- Consistency is preserved by appending a consistent row (an INSERT). -/
theorem choresConsistent_append {l : List Chore}
    (hcons : ∀ x ∈ l, choreConsistent x) {c : Chore} (hcg : choreConsistent c) :
    ∀ y ∈ l ++ [c], choreConsistent y := by
  intro y hy
  rcases List.mem_append.mp hy with h | h
  · exact hcons y h
  · rcases List.mem_singleton.mp h with rfl
    exact hcg

theorem createChore_preserves (u : User) (req : CreateChoreRequest) (randIdx : Nat)
    (now : DateTime) (db : DB) (hcons : dbChoresConsistent db) :
    dbChoresConsistent (createChore u req randIdx now none db).2 := by
  unfold createChore
  split
  · exact hcons
  split
  · exact hcons
  cases hassign : resolveInitialAssignee req randIdx with
  | none =>
    simp only [hassign, runTransaction, applySteps, List.foldl]
    exact choresConsistent_append hcons (by simp [choreConsistent, choreStatuses])
  | some uid =>
    simp only [hassign, runTransaction, applySteps, List.foldl]
    exact choresConsistent_append hcons (by simp [choreConsistent, choreStatuses])

theorem acceptChore_preserves (u : User) (cid : Nat) (now : DateTime) (db : DB)
    (hnd : choreIdsNodup db) (hcons : dbChoresConsistent db) :
    dbChoresConsistent (acceptChore u cid now none db).2 := by
  unfold acceptChore
  cases hfind : db.chores.find? (fun c => c.id == cid && c.assigned_to == some u.id &&
      c.status == "pending_acceptance") with
  | none => simpa using hcons
  | some c =>
    obtain ⟨hmem, hp⟩ := find?_eq_some_mem hfind
    simp only [Bool.and_eq_true, beq_iff_eq] at hp
    simp only [finishTx, runTransaction, applySteps, List.foldl]
    refine choresConsistent_map_update hnd hcons hmem _ ?_
    exact ⟨by simp [choreStatuses], by simp [hp.1.2]⟩

theorem assignChore_preserves (u : User) (cid tuid : Nat) (now : DateTime) (db : DB)
    (hnd : choreIdsNodup db) (hcons : dbChoresConsistent db) :
    dbChoresConsistent (assignChore u cid tuid now none db).2 := by
  unfold assignChore
  split
  · exact hcons
  split
  · exact hcons
  cases hfind : db.chores.find? (fun c => c.id == cid && c.family_id == u.family_id) with
  | none => simpa using hcons
  | some c =>
    obtain ⟨hmem, hp⟩ := find?_eq_some_mem hfind
    cases hfu : db.users.find? (fun v => v.id == tuid && v.family_id == u.family_id) with
    | none => simpa using hcons
    | some v =>
      simp only [finishTx, runTransaction, applySteps, List.foldl]
      refine choresConsistent_map_update hnd hcons hmem _ ?_
      exact ⟨by simp [choreStatuses], by simp⟩

theorem declineChore_preserves (u : User) (cid : Nat) (now : DateTime) (db : DB)
    (hnd : choreIdsNodup db) (hcons : dbChoresConsistent db) :
    dbChoresConsistent (declineChore u cid now none db).2 := by
  unfold declineChore
  cases hfind : db.chores.find? (fun c => c.id == cid && c.assigned_to == some u.id &&
      c.status == "pending_acceptance") with
  | none => simpa using hcons
  | some c =>
    obtain ⟨hmem, hp⟩ := find?_eq_some_mem hfind
    simp only [finishTx, runTransaction, applySteps, List.foldl]
    refine choresConsistent_map_update hnd hcons hmem _ ?_
    exact ⟨by simp [choreStatuses], by simp⟩

theorem submitChore_preserves (u : User) (cid : Nat) (photo notes : Option String)
    (now : DateTime) (db : DB)
    (hnd : choreIdsNodup db) (hcons : dbChoresConsistent db) :
    dbChoresConsistent (submitChore u cid photo notes now none db).2 := by
  unfold submitChore
  cases hfind : db.chores.find? (fun c => c.id == cid && c.assigned_to == some u.id &&
      c.status == "in_progress") with
  | none => simpa using hcons
  | some c =>
    obtain ⟨hmem, hp⟩ := find?_eq_some_mem hfind
    simp only [Bool.and_eq_true, beq_iff_eq] at hp
    dsimp only
    by_cases hphoto : (c.requires_photo && photo == none) = true
    · rw [if_pos hphoto]
      exact hcons
    · rw [if_neg hphoto]
      simp only [finishTx, runTransaction, applySteps, List.foldl]
      refine choresConsistent_map_update hnd hcons hmem _ ?_
      exact ⟨by simp [choreStatuses], by simp [hp.1.2]⟩

theorem approveChore_preserves (u : User) (cid : Nat) (now : DateTime) (db : DB)
    (hnd : choreIdsNodup db) (hcons : dbChoresConsistent db) :
    dbChoresConsistent (approveChore u cid now none db).2 := by
  unfold approveChore
  split
  · exact hcons
  cases hfind : approveChoreLookup db cid u.family_id with
  | none => simpa using hcons
  | some c =>
    obtain ⟨hmem, hp⟩ := find?_eq_some_mem hfind
    dsimp only
    cases hass : c.assigned_to with
    | none => exact hcons
    | some assignee =>
      dsimp only
      cases hsub : latestSubmissionFor db c.id assignee with
      | none => exact hcons
      | some subm =>
        simp only [finishTx, runTransaction, applySteps, List.foldl]
        refine choresConsistent_map_update hnd hcons hmem _ ?_
        exact ⟨by simp [choreStatuses], by simp [hass]⟩

theorem rejectChore_preserves (u : User) (cid : Nat) (fb : Option String)
    (now : DateTime) (db : DB)
    (hnd : choreIdsNodup db) (hcons : dbChoresConsistent db) :
    dbChoresConsistent (rejectChore u cid fb now none db).2 := by
  unfold rejectChore
  split
  · exact hcons
  cases hfind : db.chores.find? (fun c => c.id == cid && c.family_id == u.family_id &&
      c.status == "pending_approval") with
  | none => simpa using hcons
  | some c =>
    obtain ⟨hmem, hp⟩ := find?_eq_some_mem hfind
    dsimp only
    cases hass : c.assigned_to with
    | none => exact hcons
    | some assignee =>
      dsimp only
      cases hsub : latestSubmissionFor db c.id assignee with
      | none => exact hcons
      | some subm =>
        simp only [finishTx, runTransaction, applySteps, List.foldl]
        refine choresConsistent_map_update hnd hcons hmem _ ?_
        exact ⟨by simp [choreStatuses], by simp [hass]⟩

theorem processTemplate_preserves (creatorId : Option Nat) (now : DateTime)
    (randIdx : Nat) (db : DB) (rc : RecurringChore) (hcons : dbChoresConsistent db) :
    dbChoresConsistent (processTemplate creatorId now randIdx none db rc).2 := by
  unfold processTemplate
  cases hfind : db.recurring_chore_history.find? (fun h =>
      h.recurring_id == rc.id && h.due_date.day == rc.next_due_date.day) with
  | some h => simpa using hcons
  | none =>
    cases hdet : determineAssignee db rc randIdx with
    | none =>
      simp only [runQueries, templateWriteOps, applySteps, List.foldl, hdet]
      exact choresConsistent_append hcons (by simp [choreConsistent, choreStatuses])
    | some uid =>
      simp only [runQueries, templateWriteOps, applySteps, List.foldl, hdet]
      exact choresConsistent_append hcons (by simp [choreConsistent, choreStatuses])

theorem generateLoop_preserves (creatorId : Option Nat) (now : DateTime)
    (rand : Nat → Nat) :
    ∀ (ts : List RecurringChore) (i : Nat) (db : DB), dbChoresConsistent db →
      dbChoresConsistent (generateLoop creatorId now rand none ts i db) := by
  intro ts
  induction ts with
  | nil => intro i db hcons; simpa [generateLoop] using hcons
  | cons rc rest ih =>
    intro i db hcons
    have hstep := processTemplate_preserves creatorId now (rand i) db rc hcons
    unfold generateLoop
    dsimp only
    cases hpt : processTemplate creatorId now (rand i) none db rc with
    | mk ok db1 =>
      rw [hpt] at hstep
      cases ok with
      | true => exact ih (i + 1) db1 hstep
      | false => exact hstep

/-! ## Claim theorems -/

/-- C10: for a login attempt on an existing active user, a live lockout
(expiry not yet passed) rejects with 423 regardless of password correctness
and leaves the row unchanged; with no live lockout, a password mismatch
increments the login-attempt counter and sets a lockout expiry 15 minutes
ahead exactly when the counter reaches 5 or more, and a successful login
resets the counter to 0 and clears the lockout. -/
theorem login_lockout_contract (user : User) (now t : Int) :
    (∀ pc : Bool, user.locked_until = some t → now < t →
        loginAttempt user pc now = (LoginResult.locked, user)) ∧
    ((∀ t2, user.locked_until = some t2 → t2 ≤ now) →
      ((loginAttempt user false now).1 = LoginResult.invalid ∧
       (loginAttempt user false now).2.login_attempts = user.login_attempts + 1 ∧
       (loginAttempt user false now).2.locked_until =
         (if 5 ≤ user.login_attempts + 1 then some (now + lockoutWindowMs) else none)) ∧
      ((loginAttempt user true now).1 = LoginResult.success ∧
       (loginAttempt user true now).2.login_attempts = 0 ∧
       (loginAttempt user true now).2.locked_until = none)) := by
  constructor
  · intro pc hl hlt
    simp [loginAttempt, hl, hlt]
  · intro hexp
    cases hl : user.locked_until with
    | none => simp [loginAttempt, hl]
    | some t2 =>
      have hle : t2 ≤ now := hexp t2 hl
      have hnlt : ¬(now < t2) := by omega
      simp [loginAttempt, hl, hnlt]

/-- Witness for C10 at a concrete user: four failed attempts on an unlocked
account, a fifth mismatch locks it for 15 minutes; a live lock rejects even
a correct password; success resets. -/
theorem login_lockout_contract_witness :
    (loginAttempt
        { id := 1, family_id := 1, name := "A", role := "parent", earnings := 0,
          screen_time_earned := 0, is_active := true, login_attempts := 4,
          locked_until := none, last_login := none } false 1000).2.locked_until =
      some (1000 + lockoutWindowMs) ∧
    (loginAttempt
        { id := 1, family_id := 1, name := "A", role := "parent", earnings := 0,
          screen_time_earned := 0, is_active := true, login_attempts := 5,
          locked_until := some 2000, last_login := none } true 1000).1 =
      LoginResult.locked := by
  constructor
  · have h := (login_lockout_contract
      { id := 1, family_id := 1, name := "A", role := "parent", earnings := 0,
        screen_time_earned := 0, is_active := true, login_attempts := 4,
        locked_until := none, last_login := none } 1000 0).2
    have h2 := (h (by intro t2 ht2; simp at ht2)).1.2.2
    simpa using h2
  · have h := ((login_lockout_contract
      { id := 1, family_id := 1, name := "A", role := "parent", earnings := 0,
        screen_time_earned := 0, is_active := true, login_attempts := 5,
        locked_until := some 2000, last_login := none } 1000 2000).1 true rfl (by omega))
    simp [h]

/-- An empty store (no rows, counters at 1). -/
def emptyDB : DB :=
  { nextChoreId := 1, nextAssignmentId := 1, nextSubmissionId := 1, nextTaskId := 1,
    nextHistoryId := 1, users := [], chores := [], chore_assignments := [],
    chore_submissions := [], completed_tasks := [], recurring_chores := [],
    recurring_chore_history := [] }

/-- C3: for a round_robin template with non-empty members, generation picks
index 0 with no prior history row or a prior row without assignee; with a
prior row whose assignee sits at index i it picks index (i+1) mod length
(wrapping); and when the prior assignee is absent from the member list
(indexOf = -1) it falls back to index 0. -/
theorem round_robin_selection (db : DB) (rc : RecurringChore) (randIdx : Nat)
    (members : List Nat)
    (hauto : rc.auto_assign = true)
    (hrt : rc.rotation_type = "round_robin")
    (hmem : rc.rotation_members = some members)
    (hne : members ≠ []) :
    (lastHistoryFor db rc.id = none →
       determineAssignee db rc randIdx = members.get? 0) ∧
    (∀ h, lastHistoryFor db rc.id = some h → h.assigned_to = none →
       determineAssignee db rc randIdx = members.get? 0) ∧
    (∀ h prev i, lastHistoryFor db rc.id = some h → h.assigned_to = some prev →
       members.findIdx? (fun m => m == prev) = some i →
       determineAssignee db rc randIdx = members.get? ((i + 1) % members.length)) ∧
    (∀ h prev, lastHistoryFor db rc.id = some h → h.assigned_to = some prev →
       members.findIdx? (fun m => m == prev) = none →
       determineAssignee db rc randIdx = members.get? 0) := by
  have hlen : 0 < members.length := List.length_pos.mpr hne
  refine ⟨?_, ?_, ?_, ?_⟩
  · intro hlast
    simp [determineAssignee, hauto, hrt, hmem, hlast, hlen]
  · intro h hlast hassigned
    simp [determineAssignee, hauto, hrt, hmem, hlast, hassigned, hlen]
  · intro h prev i hlast hassigned hidx
    have hcast : (((i : Int) + 1) % ((members.length : Nat) : Int)).toNat =
        (i + 1) % members.length := by
      have h1 : ((i : Int) + 1) % ((members.length : Nat) : Int) =
          (((i + 1) % members.length : Nat) : Int) := by
        push_cast
        ring_nf
      rw [h1, Int.toNat_natCast]
    simp [determineAssignee, hauto, hrt, hmem, hlast, hassigned, hidx, hlen, hcast]
  · intro h prev hlast hassigned hidx
    have hcast : (((-1 : Int) + 1) % ((members.length : Nat) : Int)).toNat = 0 := by
      simp
    simp [determineAssignee, hauto, hrt, hmem, hlast, hassigned, hidx, hlen, hcast]

/-- A one-row history fixture: template 3 last assigned user 8. -/
def rrHistoryRow : RecurringChoreHistory :=
  { id := 1, recurring_id := 3, chore_id := 1,
    due_date := { day := 100, minute := 540 }, status := "generated",
    assigned_to := some 8 }

/-- A round-robin template over members [7, 8, 9]. -/
def rrTemplate : RecurringChore :=
  { id := 3, family_id := 1, template_id := none, title := "Trash",
    description := none, reward_type := "money", reward_amount := 100,
    requires_photo := false, frequency := "daily", day_of_week := none,
    day_of_month := none, start_date := 90, end_date := none,
    last_generated := none, next_due_date := { day := 101, minute := 540 },
    auto_assign := true, assigned_to := none, rotation_type := "round_robin",
    rotation_members := some [7, 8, 9], priority := "medium",
    estimated_duration := none, difficulty_level := "medium", category := none,
    is_active := true, created_by := 1 }

/-- The store holding only that history row. -/
def rrDB : DB :=
  { emptyDB with recurring_chore_history := [rrHistoryRow] }

/-- Witness for C3: with members [7, 8, 9] and prior assignee 8 (index 1),
the next generation picks 9. -/
theorem round_robin_selection_witness :
    determineAssignee rrDB rrTemplate 0 = some 9 := by
  have h := (round_robin_selection rrDB rrTemplate 0 [7, 8, 9] rfl rfl rfl
    (by decide)).2.2.1
  have h2 := h rrHistoryRow 8 1 (by decide) rfl (by decide)
  simpa using h2

/-- C6: creating a weekly template with day_of_week "monday" and a start
date on a past Wednesday computes next_due_date as the Monday five days
after the start date, at 09:00 — the next occurrence of the requested
weekday after start_date, not the creation day (whenever the creation day is
not that Monday). -/
theorem weekly_next_due_monday (startDay : Int) (now : DateTime)
    (hwed : DateTime.getDayOfWeek { day := startDay, minute := 9 * 60 } = 3)
    (hpast : dtLtb { day := startDay, minute := 9 * 60 } now = true) :
    calculateNextDueDate "weekly" (some "monday") none startDay now =
      { day := startDay + 5, minute := 9 * 60 } ∧
    DateTime.getDayOfWeek { day := startDay + 5, minute := 9 * 60 } = 1 ∧
    (now.day ≠ startDay + 5 →
      (calculateNextDueDate "weekly" (some "monday") none startDay now).day ≠ now.day) := by
  simp only [DateTime.getDayOfWeek] at hwed
  have hidx : dayNames.findIdx? (fun d => d == asciiLower "monday") = some 1 := by decide
  have hmain : calculateNextDueDate "weekly" (some "monday") none startDay now =
      { day := startDay + 5, minute := 9 * 60 } := by
    simp [calculateNextDueDate, hpast, hidx, DateTime.getDayOfWeek, hwed,
      DateTime.addDays]
  refine ⟨hmain, ?_, ?_⟩
  · simp only [DateTime.getDayOfWeek]
    omega
  · intro hne
    rw [hmain]
    simpa using fun hcontra => hne hcontra.symm

/-- Witness for C6: start day 6 (a Wednesday at 09:00), now day 20 — the
computed due date is day 11 (the following Monday) at 09:00. -/
theorem weekly_next_due_monday_witness :
    calculateNextDueDate "weekly" (some "monday") none 6
      { day := 20, minute := 0 } = { day := 11, minute := 9 * 60 } := by
  have h := (weekly_next_due_monday 6 { day := 20, minute := 0 }
    (by decide) (by decide)).1
  simpa using h

/-- A parent of family 1 (concrete test fixture). -/
def testParent : User :=
  { id := 1, family_id := 1, name := "P", role := "parent", earnings := 0,
    screen_time_earned := 0, is_active := true, login_attempts := 0,
    locked_until := none, last_login := none }

/-- A child of family 1 (concrete test fixture). -/
def testChild : User :=
  { id := 7, family_id := 1, name := "C", role := "child", earnings := 100,
    screen_time_earned := 30, is_active := true, login_attempts := 0,
    locked_until := none, last_login := none }

/-- A chore row fixture with the given id, family, status and assignee. -/
def testChore (i fam : Nat) (st : String) (ass : Option Nat) : Chore :=
  { id := i, family_id := fam, template_id := none, title := "Dishes",
    description := none, reward_type := "money", reward_amount := 500,
    current_reward := 500, requires_photo := false, acceptance_timer := 5,
    status := st, priority := "medium", due_date := none, assigned_to := ass,
    assigned_at := none, accepted_at := none, completed_at := none,
    created_by := 1, recurring_id := none }

/-- C9: a parent's delete of a family chore succeeds for any status other
than completed; for a completed chore it is rejected with 400 and the store
— the chore row and its reward ledger included — is left entirely in
place. -/
theorem delete_completed_guard (u : User) (choreId : Nat) (db : DB) (c : Chore)
    (hrole : u.role = "parent")
    (hfind : db.chores.find? (fun x => x.id == choreId && x.family_id == u.family_id) =
      some c) :
    (c.status = "completed" → deleteChore u choreId db = (ApiResult.err 400, db)) ∧
    (c.status ≠ "completed" →
      (deleteChore u choreId db).1 = ApiResult.ok ∧
      (deleteChore u choreId db).2.chores =
        db.chores.filter (fun x => !(x.id == choreId))) := by
  unfold deleteChore
  rw [hfind]
  simp only [hrole]
  constructor
  · intro hcomp
    simp [hcomp]
  · intro hncomp
    have hcond : ¬((c.status == "completed") = true) := by simp [hncomp]
    rw [if_neg hcond]
    exact ⟨rfl, rfl⟩

/-- Witness for C9 at a concrete store: deleting the completed chore 5 is
refused with 400 and changes nothing; deleting the in-progress chore 6
succeeds and removes it. -/
theorem delete_completed_guard_witness :
    deleteChore testParent 5
        { emptyDB with chores := [testChore 5 1 "completed" (some 7)] } =
      (ApiResult.err 400,
        { emptyDB with chores := [testChore 5 1 "completed" (some 7)] }) ∧
    (deleteChore testParent 6
        { emptyDB with chores := [testChore 6 1 "in_progress" (some 7)] }).1 =
      ApiResult.ok := by
  constructor
  · exact (delete_completed_guard testParent 5
      { emptyDB with chores := [testChore 5 1 "completed" (some 7)] }
      (testChore 5 1 "completed" (some 7)) rfl (by decide)).1 rfl
  · exact ((delete_completed_guard testParent 6
      { emptyDB with chores := [testChore 6 1 "in_progress" (some 7)] }
      (testChore 6 1 "in_progress" (some 7)) rfl (by decide)).2 (by decide)).1

/-- C8: for a chore in pending_acceptance assigned to the caller, decline
marks the pending assignment rows declined, reverts the chore to available
with assigned_to and assigned_at cleared (no reassignment to any rotation
successor), and a subsequent accept call on the same chore id by the same
user fails with 404. -/
theorem decline_reverts_and_blocks_accept (u : User) (choreId : Nat)
    (now now2 : DateTime) (db : DB) (c : Chore)
    (hfind : db.chores.find? (fun x => x.id == choreId && x.assigned_to == some u.id &&
        x.status == "pending_acceptance") = some c) :
    (declineChore u choreId now none db).1 = ApiResult.ok ∧
    (declineChore u choreId now none db).2.chore_assignments =
      db.chore_assignments.map (fun a =>
        if a.chore_id == c.id && a.user_id == u.id && a.status == "pending" then
          { a with status := "declined", declined_at := some now }
        else a) ∧
    (∀ x ∈ (declineChore u choreId now none db).2.chores, x.id = choreId →
       x.status = "available" ∧ x.assigned_to = none ∧ x.assigned_at = none) ∧
    (∀ fa, acceptChore u choreId now2 fa (declineChore u choreId now none db).2 =
       (ApiResult.err 404, (declineChore u choreId now none db).2)) := by
  have hp := List.find?_some hfind
  simp only [Bool.and_eq_true, beq_iff_eq] at hp
  obtain ⟨⟨hid, hass⟩, hstat⟩ := hp
  have hdecl : declineChore u choreId now none db =
      (ApiResult.ok,
        { db with
          chore_assignments := db.chore_assignments.map (fun a =>
            if a.chore_id == c.id && a.user_id == u.id && a.status == "pending" then
              { a with status := "declined", declined_at := some now }
            else a)
          chores := db.chores.map (fun x =>
            if x.id == c.id then
              { x with status := "available", assigned_to := none, assigned_at := none }
            else x) }) := by
    unfold declineChore
    rw [hfind]
    simp [finishTx, runTransaction, applySteps]
  rw [hdecl]
  refine ⟨rfl, rfl, ?_, ?_⟩
  · intro x hx hxid
    rcases List.mem_map.mp hx with ⟨y, hy, rfl⟩
    by_cases hguard : (y.id == c.id) = true
    · simp [hguard]
    · exfalso
      apply hguard
      simp only [if_neg hguard] at hxid
      simp [hxid, hid]
  · intro fa
    have hnone : (List.map (fun x =>
        if x.id == c.id then
          { x with status := "available", assigned_to := none, assigned_at := none }
        else x) db.chores).find? (fun x => x.id == choreId &&
          x.assigned_to == some u.id && x.status == "pending_acceptance") = none := by
      rw [List.find?_eq_none]
      intro z hz
      rcases List.mem_map.mp hz with ⟨y, hy, rfl⟩
      by_cases hguard : (y.id == c.id) = true
      · simp [hguard]
      · simp only [if_neg hguard]
        simp only [beq_iff_eq] at hguard
        intro hcontra
        simp only [Bool.and_eq_true, beq_iff_eq] at hcontra
        exact hguard (hcontra.1.1.trans hid.symm)
    unfold acceptChore
    rw [hnone]

/-- Witness for C8 at a concrete store: declining chore 9 held by child 7
reverts it to available and the follow-up accept returns 404. -/
theorem decline_reverts_and_blocks_accept_witness :
    (∀ x ∈ (declineChore testChild 9 { day := 20, minute := 600 } none
        { emptyDB with chores := [testChore 9 1 "pending_acceptance" (some 7)] }).2.chores,
      x.id = 9 → x.status = "available" ∧ x.assigned_to = none ∧ x.assigned_at = none) ∧
    (acceptChore testChild 9 { day := 20, minute := 660 } none
      (declineChore testChild 9 { day := 20, minute := 600 } none
        { emptyDB with chores := [testChore 9 1 "pending_acceptance" (some 7)] }).2).1 =
      ApiResult.err 404 := by
  have h := decline_reverts_and_blocks_accept testChild 9
    { day := 20, minute := 600 } { day := 20, minute := 660 }
    { emptyDB with chores := [testChore 9 1 "pending_acceptance" (some 7)] }
    (testChore 9 1 "pending_acceptance" (some 7)) (by decide)
  exact ⟨h.2.2.1, by rw [h.2.2.2 none]⟩

/-- A create request: auto-assigned round-robin chore over members [7, 8]. -/
def rrCreateRequest : CreateChoreRequest :=
  { title := some "Dishes", description := none, reward_amount := some 500,
    reward_type := some "money", requires_photo := false, acceptance_timer := none,
    auto_assign := true, assigned_to := none, rotation_type := some "round_robin",
    rotation_members := some [7, 8], priority := none }

/-- Family 1 with its parent and child and no chores. -/
def familyDB : DB :=
  { emptyDB with users := [testParent, testChild] }

/-- The store after the parent creates the auto-assigned chore (id 1,
status assigned, assigned to 7). -/
def afterCreateDB : DB :=
  (createChore testParent rrCreateRequest 0 { day := 20, minute := 600 } none familyDB).2

/-- A PATCH body setting only `status` to "available". -/
def statusOnlyPatch : ChoreUpdateBody :=
  { title := none, description := none, reward_amount := none, reward_type := none,
    requires_photo := none, acceptance_timer := none, status := some "available" }

/-- The store after the parent PATCHes the chore's status to "available"
while `assigned_to` stays 7. -/
def afterPatchDB : DB :=
  (updateChore testParent 1 statusOnlyPatch afterCreateDB).2

/-- C7 counterexample: a chore reached through the API's own operations
(create with auto-assign, then the PATCH status escape hatch) ends with
status "available" while `assigned_to` is still user 7, violating the
claimed "assigned_to is null iff status is available". -/
theorem chore_invariant_broken_by_update :
    ∃ c ∈ afterPatchDB.chores, c.status = "available" ∧ c.assigned_to = some 7 ∧
      ¬(c.assigned_to = none ↔ c.status = "available") := by
  decide

/-- C7 amended: every chore-lifecycle operation of the API other than the
PATCH field-allowlist update — create, assign, accept, decline, submit,
approve, reject, recurring generation — keeps every chore's status inside
the schema's enum and `assigned_to` null exactly when the status is
available (given primary-key uniqueness of chore ids); the PATCH handler is
the one operation that can break the consistency, as it applies `status`
directly with no transition-guard re-validation. -/
theorem chore_invariant_preserved_by_lifecycle (op : LifecycleOp) (now : DateTime)
    (db : DB) (hnd : choreIdsNodup db) (hcons : dbChoresConsistent db) :
    dbChoresConsistent (applyLifecycleOp op now db) := by
  cases op with
  | create u req randIdx => exact createChore_preserves u req randIdx now db hcons
  | assign u cid uid => exact assignChore_preserves u cid uid now db hnd hcons
  | accept u cid => exact acceptChore_preserves u cid now db hnd hcons
  | decline u cid => exact declineChore_preserves u cid now db hnd hcons
  | submit u cid photo notes =>
    exact submitChore_preserves u cid photo notes now db hnd hcons
  | approve u cid => exact approveChore_preserves u cid now db hnd hcons
  | reject u cid fb => exact rejectChore_preserves u cid fb now db hnd hcons
  | generate creatorId rand => exact generateLoop_preserves creatorId now rand _ 0 db hcons

/-- Witness for the amended C7 at a concrete store and operation (declining
a pending chore). -/
theorem chore_invariant_preserved_by_lifecycle_witness :
    choreIdsNodup { emptyDB with chores := [testChore 9 1 "pending_acceptance" (some 7)] } ∧
    dbChoresConsistent { emptyDB with chores := [testChore 9 1 "pending_acceptance" (some 7)] } ∧
    dbChoresConsistent (applyLifecycleOp (LifecycleOp.decline testChild 9)
      { day := 20, minute := 600 }
      { emptyDB with chores := [testChore 9 1 "pending_acceptance" (some 7)] }) := by
  refine ⟨by unfold choreIdsNodup; decide, ?_, ?_⟩
  · intro c hc
    simp only [List.mem_singleton] at hc
    subst hc
    exact ⟨by decide, by decide⟩
  · refine chore_invariant_preserved_by_lifecycle _ _ _
      (by unfold choreIdsNodup; decide) ?_
    intro c hc
    simp only [List.mem_singleton] at hc
    subst hc
    exact ⟨by decide, by decide⟩

theorem finishTx_atomic (ops : List (DB → DB)) (i : Nat) (s : DB) :
    (finishTx ops (some i) s).2 = s ∨ finishTx ops (some i) s = finishTx ops none s := by
  unfold finishTx runTransaction
  by_cases h : i < ops.length <;> simp [h]

theorem createChore_atomic (u : User) (req : CreateChoreRequest) (randIdx : Nat)
    (now : DateTime) (db : DB) (i : Nat) :
    (createChore u req randIdx now (some i) db).2 = db ∨
    createChore u req randIdx now (some i) db = createChore u req randIdx now none db := by
  unfold createChore
  split
  · left; rfl
  split
  · left; rfl
  exact finishTx_atomic _ _ _

theorem assignChore_atomic (u : User) (cid tuid : Nat) (now : DateTime) (db : DB) (i : Nat) :
    (assignChore u cid tuid now (some i) db).2 = db ∨
    assignChore u cid tuid now (some i) db = assignChore u cid tuid now none db := by
  unfold assignChore
  split
  · left; rfl
  split
  · left; rfl
  split
  · left; rfl
  split
  · left; rfl
  exact finishTx_atomic _ _ _

theorem acceptChore_atomic (u : User) (cid : Nat) (now : DateTime) (db : DB) (i : Nat) :
    (acceptChore u cid now (some i) db).2 = db ∨
    acceptChore u cid now (some i) db = acceptChore u cid now none db := by
  unfold acceptChore
  split
  · left; rfl
  exact finishTx_atomic _ _ _

theorem declineChore_atomic (u : User) (cid : Nat) (now : DateTime) (db : DB) (i : Nat) :
    (declineChore u cid now (some i) db).2 = db ∨
    declineChore u cid now (some i) db = declineChore u cid now none db := by
  unfold declineChore
  split
  · left; rfl
  exact finishTx_atomic _ _ _

theorem submitChore_atomic (u : User) (cid : Nat) (photo notes : Option String)
    (now : DateTime) (db : DB) (i : Nat) :
    (submitChore u cid photo notes now (some i) db).2 = db ∨
    submitChore u cid photo notes now (some i) db =
      submitChore u cid photo notes now none db := by
  unfold submitChore
  split
  · left; rfl
  split
  · left; rfl
  exact finishTx_atomic _ _ _

theorem approveChore_atomic (u : User) (cid : Nat) (now : DateTime) (db : DB) (i : Nat) :
    (approveChore u cid now (some i) db).2 = db ∨
    approveChore u cid now (some i) db = approveChore u cid now none db := by
  unfold approveChore
  split
  · left; rfl
  split
  · left; rfl
  split
  · left; rfl
  split
  · left; rfl
  exact finishTx_atomic _ _ _

/-- A due daily template without auto-assignment (concrete fixture for the
generation write sequence). -/
def genTemplate : RecurringChore :=
  { id := 4, family_id := 1, template_id := none, title := "Sweep",
    description := none, reward_type := "money", reward_amount := 200,
    requires_photo := false, frequency := "daily", day_of_week := none,
    day_of_month := none, start_date := 10, end_date := none,
    last_generated := none, next_due_date := { day := 20, minute := 540 },
    auto_assign := false, assigned_to := none, rotation_type := "none",
    rotation_members := none, priority := "medium", estimated_duration := none,
    difficulty_level := "medium", category := none, is_active := true,
    created_by := 1 }

/-- A store holding only that template. -/
def genDB : DB :=
  { emptyDB with recurring_chores := [genTemplate] }

/-- The generation clock: the template's due day. -/
def genNow : DateTime :=
  { day := 20, minute := 600 }

/-- A fixed `Math.random` oracle. -/
def genRand : Nat → Nat :=
  fun _ => 0

/-- C4 counterexample: recurring generation's per-template write sequence is
not a transaction — with a failure injected at its second statement (the
history insert), the resulting store is neither the untouched one nor the
fully-committed one: the generated chore row is observable while no history
row was written. -/
theorem generation_partial_write_observable :
    generateRecurringChores genNow genRand (some { template := 0, step := 1 }) genDB ≠
      genDB ∧
    generateRecurringChores genNow genRand (some { template := 0, step := 1 }) genDB ≠
      generateRecurringChores genNow genRand none genDB ∧
    (generateRecurringChores genNow genRand (some { template := 0, step := 1 })
        genDB).chores.length = genDB.chores.length + 1 ∧
    (generateRecurringChores genNow genRand (some { template := 0, step := 1 })
        genDB).recurring_chore_history = [] := by
  decide

/-- C4 amended: the chore-route write sequences — create with initial
assignment, assign, accept, decline, submit, approve — run inside one
`db.transaction` and are all-or-nothing (a failure at any statement leaves
the store unchanged; otherwise the outcome equals the failure-free run),
but recurring generation's chore insert + assignment insert + history
insert + template update are separate statements with no transaction: a
mid-sequence failure leaves the earlier writes observable. -/
theorem multi_statement_write_atomicity :
    (∀ (u : User) (req : CreateChoreRequest) (randIdx : Nat) (now : DateTime)
        (db : DB) (i : Nat),
       (createChore u req randIdx now (some i) db).2 = db ∨
       createChore u req randIdx now (some i) db =
         createChore u req randIdx now none db) ∧
    (∀ (u : User) (cid tuid : Nat) (now : DateTime) (db : DB) (i : Nat),
       (assignChore u cid tuid now (some i) db).2 = db ∨
       assignChore u cid tuid now (some i) db = assignChore u cid tuid now none db) ∧
    (∀ (u : User) (cid : Nat) (now : DateTime) (db : DB) (i : Nat),
       (acceptChore u cid now (some i) db).2 = db ∨
       acceptChore u cid now (some i) db = acceptChore u cid now none db) ∧
    (∀ (u : User) (cid : Nat) (now : DateTime) (db : DB) (i : Nat),
       (declineChore u cid now (some i) db).2 = db ∨
       declineChore u cid now (some i) db = declineChore u cid now none db) ∧
    (∀ (u : User) (cid : Nat) (photo notes : Option String) (now : DateTime)
        (db : DB) (i : Nat),
       (submitChore u cid photo notes now (some i) db).2 = db ∨
       submitChore u cid photo notes now (some i) db =
         submitChore u cid photo notes now none db) ∧
    (∀ (u : User) (cid : Nat) (now : DateTime) (db : DB) (i : Nat),
       (approveChore u cid now (some i) db).2 = db ∨
       approveChore u cid now (some i) db = approveChore u cid now none db) ∧
    ((generateRecurringChores genNow genRand (some { template := 0, step := 1 })
        genDB).chores.length = genDB.chores.length + 1 ∧
     (generateRecurringChores genNow genRand (some { template := 0, step := 1 })
        genDB).recurring_chore_history = []) := by
  refine ⟨createChore_atomic, assignChore_atomic, acceptChore_atomic,
    declineChore_atomic, submitChore_atomic, approveChore_atomic, ?_, ?_⟩ <;> decide

/-- A second due daily template, independent of `genTemplate`. -/
def genTemplate2 : RecurringChore :=
  { genTemplate with id := 5, title := "Mop" }

/-- A store holding the two due templates. -/
def gen2DB : DB :=
  { emptyDB with recurring_chores := [genTemplate, genTemplate2] }

/-- C5 counterexample: with two due templates, a failure while processing
the first aborts the whole batch — the second template, which a clean run
does generate for, gets no chore and no history row in that invocation;
the loop does not continue with the next template. -/
theorem generation_failure_not_isolated :
    ((generateRecurringChores genNow genRand none gen2DB).recurring_chore_history.filter
        (fun h => h.recurring_id == 5)).length = 1 ∧
    ((generateRecurringChores genNow genRand (some { template := 0, step := 0 })
        gen2DB).recurring_chore_history.filter
        (fun h => h.recurring_id == 5)).length = 0 ∧
    (generateRecurringChores genNow genRand (some { template := 0, step := 0 })
        gen2DB).chores = [] := by
  decide

/-- C5 amended: generation has no per-template error isolation — an error
thrown at write statement `step` of the first template of a two-template
batch propagates out of the loop: the invocation's final store is exactly
the failing template's committed statement prefix, and the remaining
template is not processed at all. -/
theorem generation_failure_aborts_batch (t1 t2 : RecurringChore) (db : DB)
    (now : DateTime) (rand : Nat → Nat) (step : Nat)
    (hsel : dueTemplates db now = [t1, t2])
    (hguard : db.recurring_chore_history.find? (fun h =>
       h.recurring_id == t1.id && h.due_date.day == t1.next_due_date.day) = none)
    (hstep : step < (templateWriteOps t1 (determineAssignee db t1 (rand 0)) none now
       db.nextChoreId).length) :
    generateRecurringChores now rand (some { template := 0, step := step }) db =
      applySteps ((templateWriteOps t1 (determineAssignee db t1 (rand 0)) none now
        db.nextChoreId).take step) db := by
  unfold generateRecurringChores
  rw [hsel]
  unfold generateLoop
  try dsimp only
  unfold processTemplate
  rw [hguard]
  try dsimp only
  unfold runQueries
  simp only [show ((0 : Nat) == 0) = true from rfl, if_true]
  try dsimp only
  rw [if_pos hstep]

/-- Witness for the amended C5 at the concrete two-template store: failing
the first template's second statement leaves exactly its chore insert and
nothing of the second template. -/
theorem generation_failure_aborts_batch_witness :
    generateRecurringChores genNow genRand (some { template := 0, step := 1 }) gen2DB =
      applySteps ((templateWriteOps genTemplate
        (determineAssignee gen2DB genTemplate (genRand 0)) none genNow
        gen2DB.nextChoreId).take 1) gen2DB := by
  exact generation_failure_aborts_batch genTemplate genTemplate2 gen2DB genNow genRand 1
    (by decide) (by decide) (by decide)

/-- The earnings balance of the first user row with the given id. -/
def userEarnings (db : DB) (uid : Nat) : Option Int :=
  (db.users.find? (fun v => v.id == uid)).map (fun v => v.earnings)

/-- The screen-time balance of the first user row with the given id. -/
def userScreenTime (db : DB) (uid : Nat) : Option Int :=
  (db.users.find? (fun v => v.id == uid)).map (fun v => v.screen_time_earned)

/-- The status of the first chore row with the given id. -/
def choreStatusOf (db : DB) (cid : Nat) : Option String :=
  (db.chores.find? (fun c => c.id == cid)).map (fun c => c.status)

/-- The status of the first submission row with the given id. -/
def submissionStatusOf (db : DB) (sid : Nat) : Option String :=
  (db.chore_submissions.find? (fun s => s.id == sid)).map (fun s => s.status)

theorem find?_map_id_key {α} (key : α → Nat) (k : Nat) (f : α → α)
    (hf : ∀ x, key (f x) = key x) (l : List α) :
    (l.map f).find? (fun x => key x == k) = (l.find? (fun x => key x == k)).map f := by
  induction l with
  | nil => rfl
  | cons a l ih =>
    simp only [List.map_cons]
    by_cases ha : (key a == k) = true
    · rw [List.find?_cons_of_pos, List.find?_cons_of_pos]
      · simp
      · exact ha
      · rw [hf a]; exact ha
    · rw [List.find?_cons_of_neg, List.find?_cons_of_neg]
      · simp [ih]
      · exact ha
      · rw [hf a]; exact ha

theorem foldl_pickLatest_mem {α} (ltb : α → α → Bool) :
    ∀ (l : List α) (acc : Option α) (s : α),
      l.foldl (fun acc x =>
        match acc with
        | none => some x
        | some b => if ltb b x then some x else some b) acc = some s →
      s ∈ l ∨ acc = some s := by
  intro l
  induction l with
  | nil =>
    intro acc s h
    right
    simpa using h
  | cons a l ih =>
    intro acc s h
    rw [List.foldl_cons] at h
    rcases ih _ s h with hmem | hacc
    · exact Or.inl (List.mem_cons_of_mem _ hmem)
    · cases acc with
      | none =>
        simp only [] at hacc
        rcases Option.some.inj hacc with rfl
        exact Or.inl (List.mem_cons_self _ _)
      | some b =>
        by_cases hlt : ltb b a = true
        · simp only [hlt, if_true] at hacc
          rcases Option.some.inj hacc with rfl
          exact Or.inl (List.mem_cons_self _ _)
        · simp only [hlt] at hacc
          exact Or.inr hacc

theorem pickLatest_mem {α} {ltb : α → α → Bool} {l : List α} {s : α}
    (h : pickLatest ltb l = some s) : s ∈ l := by
  unfold pickLatest at h
  rcases foldl_pickLatest_mem _ _ _ _ h with hmem | habs
  · exact hmem
  · cases habs

theorem latestSubmissionFor_mem {db : DB} {cid uid : Nat} {s : ChoreSubmission}
    (h : latestSubmissionFor db cid uid = some s) : s ∈ db.chore_submissions := by
  unfold latestSubmissionFor at h
  exact List.mem_of_mem_filter (pickLatest_mem h)

/-- C1: for a chore in pending_approval with an existing submission, a
parent's approve marks the latest submission approved, appends exactly one
completed_tasks row with reward_earned = current_reward for the assignee,
credits the assignee's earnings (money) or screen_time_earned (screen_time)
by exactly current_reward, and sets the chore to completed; the four writes
run in one transaction, so a failure at any of them leaves the store
unchanged (500, no partial state). -/
theorem approve_contract (u : User) (choreId : Nat) (now : DateTime) (db : DB)
    (c : Chore) (assignee : Nat) (subm : ChoreSubmission)
    (hrole : u.role = "parent")
    (hlookup : approveChoreLookup db choreId u.family_id = some c)
    (hass : c.assigned_to = some assignee)
    (hsub : latestSubmissionFor db c.id assignee = some subm) :
    (approveChore u choreId now none db).1 = ApiResult.ok ∧
    submissionStatusOf (approveChore u choreId now none db).2 subm.id =
      some "approved" ∧
    (∃ t, (approveChore u choreId now none db).2.completed_tasks =
        db.completed_tasks ++ [t] ∧
      t.reward_earned = c.current_reward ∧ t.user_id = assignee ∧
      t.chore_id = c.id ∧ t.submission_id = subm.id ∧
      t.reward_type = c.reward_type) ∧
    (c.reward_type = "money" →
      userEarnings (approveChore u choreId now none db).2 assignee =
        (userEarnings db assignee).map (fun e => e + c.current_reward)) ∧
    (c.reward_type = "screen_time" →
      userScreenTime (approveChore u choreId now none db).2 assignee =
        (userScreenTime db assignee).map (fun e => e + c.current_reward)) ∧
    choreStatusOf (approveChore u choreId now none db).2 choreId =
      some "completed" ∧
    (∀ i, i < 4 → approveChore u choreId now (some i) db = (ApiResult.err 500, db)) := by
  have hp := List.find?_some hlookup
  have hcid : c.id = choreId := by
    simp only [Bool.and_eq_true, beq_iff_eq] at hp
    exact hp.1.1.1
  have hmem : c ∈ db.chores := List.mem_of_find?_eq_some hlookup
  have hmemsub : subm ∈ db.chore_submissions := latestSubmissionFor_mem hsub
  have hsucc : approveChore u choreId now none db =
      (ApiResult.ok,
        { db with
          chore_submissions := db.chore_submissions.map (fun x =>
            if x.id == subm.id then
              { x with status := "approved", reviewed_at := some now,
                       reviewed_by := some u.id }
            else x)
          completed_tasks := db.completed_tasks ++ [{
            id := db.nextTaskId, chore_id := c.id, user_id := assignee,
            submission_id := subm.id, chore_title := c.title,
            chore_description := c.description, reward_type := c.reward_type,
            reward_earned := c.current_reward, completed_at := subm.submitted_at,
            approved_by := u.id, approved_at := now, photo_path := subm.photo_path,
            notes := subm.notes }]
          nextTaskId := db.nextTaskId + 1
          users := db.users.map (fun v =>
            if v.id == assignee then
              if c.reward_type == "money" then
                { v with earnings := v.earnings + c.current_reward }
              else if c.reward_type == "screen_time" then
                { v with screen_time_earned := v.screen_time_earned + c.current_reward }
              else v
            else v)
          chores := db.chores.map (fun x =>
            if x.id == c.id then
              { x with status := "completed", completed_at := some now }
            else x) }) := by
    unfold approveChore
    rw [hlookup]
    simp only [hrole]
    try dsimp only
    rw [hass]
    try dsimp only
    rw [hsub]
    simp [finishTx, runTransaction, applySteps]
  refine ⟨?_, ?_, ?_, ?_, ?_, ?_, ?_⟩
  · rw [hsucc]
  · rw [hsucc]
    unfold submissionStatusOf
    dsimp only
    rw [find?_map_id_key ChoreSubmission.id subm.id _ (by
      intro x
      by_cases hx : (x.id == subm.id) = true <;> simp [hx])]
    have hsome : ∃ y, db.chore_submissions.find? (fun s => s.id == subm.id) = some y := by
      have hiss : (db.chore_submissions.find? (fun s => s.id == subm.id)).isSome := by
        rw [List.find?_isSome]
        exact ⟨subm, hmemsub, by simp⟩
      exact Option.isSome_iff_exists.mp hiss
    obtain ⟨y, hy⟩ := hsome
    have hyid : y.id = subm.id := by simpa using List.find?_some hy
    rw [hy]
    simp [hyid]
  · rw [hsucc]
    exact ⟨_, rfl, rfl, rfl, rfl, rfl, rfl⟩
  · intro hm
    rw [hsucc]
    unfold userEarnings
    dsimp only
    rw [find?_map_id_key User.id assignee _ (by
      intro x
      by_cases hx : (x.id == assignee) = true
      · simp only [hx, if_true]
        split
        · rfl
        · split <;> rfl
      · simp [hx])]
    cases hfu : db.users.find? (fun v => v.id == assignee) with
    | none => simp
    | some v =>
      have hvid : v.id = assignee := by simpa using List.find?_some hfu
      simp [hvid, hm]
  · intro hm
    rw [hsucc]
    unfold userScreenTime
    dsimp only
    rw [find?_map_id_key User.id assignee _ (by
      intro x
      by_cases hx : (x.id == assignee) = true
      · simp only [hx, if_true]
        split
        · rfl
        · split <;> rfl
      · simp [hx])]
    cases hfu : db.users.find? (fun v => v.id == assignee) with
    | none => simp
    | some v =>
      have hvid : v.id = assignee := by simpa using List.find?_some hfu
      simp [hvid, hm]
  · rw [hsucc]
    unfold choreStatusOf
    dsimp only
    rw [find?_map_id_key Chore.id choreId _ (by
      intro x
      by_cases hx : (x.id == c.id) = true <;> simp [hx])]
    have hsome : ∃ y, db.chores.find? (fun x => x.id == choreId) = some y := by
      have hiss : (db.chores.find? (fun x => x.id == choreId)).isSome := by
        rw [List.find?_isSome]
        exact ⟨c, hmem, by simp [hcid]⟩
      exact Option.isSome_iff_exists.mp hiss
    obtain ⟨y, hy⟩ := hsome
    have hyid : y.id = choreId := by simpa using List.find?_some hy
    rw [hy]
    simp [hyid, hcid]
  · intro i hi
    unfold approveChore
    rw [hlookup]
    simp only [hrole]
    try dsimp only
    rw [hass]
    try dsimp only
    rw [hsub]
    simp [finishTx, runTransaction, hi]

/-- Witness for C1: approving the pending_approval chore 5 (money reward
500, assignee 7 with prior earnings 100) credits child 7 to 600, appends one
ledger row with reward_earned 500, approves submission 2 and completes the
chore; injected failures at each of the four statements leave the store
untouched. -/
theorem approve_contract_witness :
    (approveChore testParent 5 { day := 21, minute := 600 } none
        { emptyDB with
          users := [testParent, testChild]
          chores := [testChore 5 1 "pending_approval" (some 7)]
          chore_submissions := [{
            id := 2, chore_id := 5, user_id := 7, assignment_id := none,
            photo_path := none, notes := some "done",
            submitted_at := { day := 21, minute := 500 }, status := "pending",
            reviewed_at := none, reviewed_by := none, review_notes := none }] }).1 =
      ApiResult.ok ∧
    userEarnings (approveChore testParent 5 { day := 21, minute := 600 } none
        { emptyDB with
          users := [testParent, testChild]
          chores := [testChore 5 1 "pending_approval" (some 7)]
          chore_submissions := [{
            id := 2, chore_id := 5, user_id := 7, assignment_id := none,
            photo_path := none, notes := some "done",
            submitted_at := { day := 21, minute := 500 }, status := "pending",
            reviewed_at := none, reviewed_by := none, review_notes := none }] }).2 7 =
      some 600 := by
  have h := approve_contract testParent 5 { day := 21, minute := 600 }
    { emptyDB with
      users := [testParent, testChild]
      chores := [testChore 5 1 "pending_approval" (some 7)]
      chore_submissions := [{
        id := 2, chore_id := 5, user_id := 7, assignment_id := none,
        photo_path := none, notes := some "done",
        submitted_at := { day := 21, minute := 500 }, status := "pending",
        reviewed_at := none, reviewed_by := none, review_notes := none }] }
    (testChore 5 1 "pending_approval" (some 7)) 7
    { id := 2, chore_id := 5, user_id := 7, assignment_id := none,
      photo_path := none, notes := some "done",
      submitted_at := { day := 21, minute := 500 }, status := "pending",
      reviewed_at := none, reviewed_by := none, review_notes := none }
    rfl (by decide) rfl (by decide)
  refine ⟨h.1, ?_⟩
  have h4 := h.2.2.2.1 rfl
  rw [h4]
  decide

/-- Number of history rows for a template on a calendar date. -/
def historyCountFor (db : DB) (rid : Nat) (d : Int) : Nat :=
  (db.recurring_chore_history.filter (fun h =>
    h.recurring_id == rid && h.due_date.day == d)).length

/-- Number of chore rows generated from a template for a calendar due
date (identified through the metadata `recurring_id` and `DATE(due_date)`). -/
def choreCountFor (db : DB) (rid : Nat) (d : Int) : Nat :=
  (db.chores.filter (fun c =>
    (match c.recurring_id with | some r => r == rid | none => false) &&
    (match c.due_date with | some t => t.day == d | none => false))).length

theorem historyCountFor_zero_find {db : DB} {rid : Nat} {d : Int}
    (h : historyCountFor db rid d = 0) :
    db.recurring_chore_history.find? (fun x =>
      x.recurring_id == rid && x.due_date.day == d) = none := by
  unfold historyCountFor at h
  rw [List.length_eq_zero] at h
  rw [List.find?_eq_none]
  intro x hx
  simpa using List.filter_eq_nil_iff.mp h x hx

theorem processTemplate_skip (cr : Option Nat) (now : DateTime) (r : Nat)
    (fs : Option Nat) (db : DB) (rc : RecurringChore) (h0 : RecurringChoreHistory)
    (hfind : db.recurring_chore_history.find? (fun h =>
       h.recurring_id == rc.id && h.due_date.day == rc.next_due_date.day) = some h0) :
    processTemplate cr now r fs db rc = (true, db) := by
  unfold processTemplate
  rw [hfind]

theorem processTemplate_generate (cr : Option Nat) (now : DateTime) (r : Nat)
    (db : DB) (rc : RecurringChore)
    (hfind : db.recurring_chore_history.find? (fun h =>
       h.recurring_id == rc.id && h.due_date.day == rc.next_due_date.day) = none) :
    processTemplate cr now r none db rc =
      (true, applySteps
        (templateWriteOps rc (determineAssignee db rc r) cr now db.nextChoreId) db) := by
  unfold processTemplate
  rw [hfind]
  try dsimp only
  unfold runQueries
  rfl

theorem generateLoop_nil (cr : Option Nat) (now : DateTime) (rand : Nat → Nat)
    (fa : Option GenFail) (i : Nat) (db : DB) :
    generateLoop cr now rand fa [] i db = db := rfl

theorem generateLoop_single (cr : Option Nat) (now : DateTime) (rand : Nat → Nat)
    (rc : RecurringChore) (i : Nat) (db : DB) :
    generateLoop cr now rand none [rc] i db =
      (processTemplate cr now (rand i) none db rc).2 := by
  unfold generateLoop
  try dsimp only
  cases hpt : processTemplate cr now (rand i) none db rc with
  | mk ok db1 => cases ok <;> simp [generateLoop]

theorem templateWriteOps_history (rc : RecurringChore) (A cr : Option Nat)
    (now : DateTime) (cid : Nat) (db : DB) :
    (applySteps (templateWriteOps rc A cr now cid) db).recurring_chore_history =
      db.recurring_chore_history ++ [{
        id := db.nextHistoryId, recurring_id := rc.id, chore_id := cid,
        due_date := rc.next_due_date, status := "generated", assigned_to := A }] := by
  cases A <;> simp [templateWriteOps, applySteps]

theorem templateWriteOps_recurring (rc : RecurringChore) (A cr : Option Nat)
    (now : DateTime) (cid : Nat) (db : DB) :
    (applySteps (templateWriteOps rc A cr now cid) db).recurring_chores =
      db.recurring_chores.map (fun x =>
        if x.id == rc.id then
          { x with next_due_date := advanceNextDueDate rc.frequency rc.next_due_date,
                   last_generated := some now }
        else x) := by
  cases A <;> simp [templateWriteOps, applySteps]

theorem templateWriteOps_historyCount (rc : RecurringChore) (A cr : Option Nat)
    (now : DateTime) (cid : Nat) (db : DB) (rid : Nat) (d : Int) :
    historyCountFor (applySteps (templateWriteOps rc A cr now cid) db) rid d =
      historyCountFor db rid d +
        (if (rc.id == rid && rc.next_due_date.day == d) = true then 1 else 0) := by
  by_cases hcond : (rc.id == rid && rc.next_due_date.day == d) = true <;>
    cases A <;>
      simp [templateWriteOps, applySteps, historyCountFor, List.filter_append, hcond]

theorem templateWriteOps_choreCount (rc : RecurringChore) (A cr : Option Nat)
    (now : DateTime) (cid : Nat) (db : DB) (rid : Nat) (d : Int) :
    choreCountFor (applySteps (templateWriteOps rc A cr now cid) db) rid d =
      choreCountFor db rid d +
        (if (rc.id == rid && rc.next_due_date.day == d) = true then 1 else 0) := by
  by_cases hcond : (rc.id == rid && rc.next_due_date.day == d) = true <;>
    cases A <;>
      simp [templateWriteOps, applySteps, choreCountFor, List.filter_append, hcond]

theorem generation_second_run_count (now : DateTime) (rand : Nat → Nat)
    (db1 : DB) (rc2 : RecurringChore) (rid : Nat) (d : Int)
    (hrec : db1.recurring_chores = [rc2])
    (hid : rc2.id = rid)
    (h1h : historyCountFor db1 rid d = 1)
    (h1c : choreCountFor db1 rid d = 1)
    (hmem : ∃ x ∈ db1.recurring_chore_history,
      (x.recurring_id == rid && x.due_date.day == d) = true) :
    historyCountFor (generateRecurringChores now rand none db1) rid d = 1 ∧
    choreCountFor (generateRecurringChores now rand none db1) rid d = 1 := by
  unfold generateRecurringChores dueTemplates
  try dsimp only
  rw [hrec]
  simp only [List.filter_cons, List.filter_nil]
  by_cases hpass : (rc2.is_active &&
      dtLeb rc2.next_due_date { day := now.day, minute := 1439 } &&
      (match rc2.end_date with
       | none => true
       | some e => decide (now.day ≤ e))) = true
  · rw [if_pos hpass, generateLoop_single]
    rcases hguard : db1.recurring_chore_history.find? (fun h =>
        h.recurring_id == rc2.id && h.due_date.day == rc2.next_due_date.day) with _ | h0
    · rw [processTemplate_generate none now (rand 0) db1 rc2 hguard]
      have hd2 : rc2.next_due_date.day ≠ d := by
        intro heq
        obtain ⟨x, hx, hxp⟩ := hmem
        have hnp := List.find?_eq_none.mp hguard x hx
        apply hnp
        simp only [Bool.and_eq_true, beq_iff_eq] at hxp ⊢
        exact ⟨hxp.1.trans hid.symm, hxp.2.trans heq.symm⟩
      constructor
      · rw [templateWriteOps_historyCount, h1h]
        simp [hd2]
      · rw [templateWriteOps_choreCount, h1c]
        simp [hd2]
    · rw [processTemplate_skip none now (rand 0) none db1 rc2 h0 hguard]
      exact ⟨h1h, h1c⟩
  · rw [if_neg hpass, generateLoop_nil]
    exact ⟨h1h, h1c⟩

/-- C2: generation is idempotent per calendar due date — for an active,
due template (here: the store's one template) with no existing history row
or generated chore for its due date, running generation twice in succession
(serialized) leaves exactly one chore row and exactly one history row for
that template and calendar date, not two. -/
theorem generation_idempotent_per_date (rc : RecurringChore) (db : DB)
    (now : DateTime) (rand : Nat → Nat)
    (hsingle : db.recurring_chores = [rc])
    (hactive : rc.is_active = true)
    (hdue : dtLeb rc.next_due_date { day := now.day, minute := 1439 } = true)
    (hend : (match rc.end_date with
             | none => true
             | some e => decide (now.day ≤ e)) = true)
    (hhist : historyCountFor db rc.id rc.next_due_date.day = 0)
    (hchore : choreCountFor db rc.id rc.next_due_date.day = 0) :
    historyCountFor (generateRecurringChores now rand none
      (generateRecurringChores now rand none db)) rc.id rc.next_due_date.day = 1 ∧
    choreCountFor (generateRecurringChores now rand none
      (generateRecurringChores now rand none db)) rc.id rc.next_due_date.day = 1 := by
  have hguard1 := historyCountFor_zero_find hhist
  have hsel1 : dueTemplates db now = [rc] := by
    unfold dueTemplates
    try dsimp only
    rw [hsingle]
    simp [hactive, hdue, hend]
  have hrun1 : generateRecurringChores now rand none db =
      applySteps (templateWriteOps rc (determineAssignee db rc (rand 0)) none now
        db.nextChoreId) db := by
    unfold generateRecurringChores
    rw [hsel1, generateLoop_single,
      processTemplate_generate none now (rand 0) db rc hguard1]
  rw [hrun1]
  have h1hist : historyCountFor
      (applySteps (templateWriteOps rc (determineAssignee db rc (rand 0)) none now
        db.nextChoreId) db) rc.id rc.next_due_date.day = 1 := by
    rw [templateWriteOps_historyCount, hhist]
    simp
  have h1chore : choreCountFor
      (applySteps (templateWriteOps rc (determineAssignee db rc (rand 0)) none now
        db.nextChoreId) db) rc.id rc.next_due_date.day = 1 := by
    rw [templateWriteOps_choreCount, hchore]
    simp
  refine generation_second_run_count now rand _
    { rc with next_due_date := advanceNextDueDate rc.frequency rc.next_due_date,
              last_generated := some now }
    rc.id rc.next_due_date.day ?_ rfl h1hist h1chore ?_
  · rw [templateWriteOps_recurring, hsingle]
    simp
  · rw [templateWriteOps_history]
    exact ⟨_, List.mem_append_right _ (List.mem_singleton.mpr rfl), by simp⟩

/-- Witness for C2 at the concrete single-template store: two serialized
generation runs leave exactly one chore and one history row for template 4
on its due day 20. -/
theorem generation_idempotent_per_date_witness :
    historyCountFor (generateRecurringChores genNow genRand none
      (generateRecurringChores genNow genRand none genDB)) 4 20 = 1 ∧
    choreCountFor (generateRecurringChores genNow genRand none
      (generateRecurringChores genNow genRand none genDB)) 4 20 = 1 := by
  have h := generation_idempotent_per_date genTemplate genDB genNow genRand
    rfl rfl (by decide) rfl (by decide) (by decide)
  exact h

end FamilyChores
